import Mathlib

/-!
Verification of the statement-to-ledger converter in src/main.rs.

The embedding models the core pipeline: the table boundary extraction in
extract_text, the row extraction in extract_row, the header formatting in
header, and the transaction emission loop of main (modelled as runFrom and
runMain over the list of table lines).  Rust strings are Lean String values;
Rust panics (assert, unreachable, unimplemented, unwrap on None) are modelled
as error values of an explicit error type.  The iterator over text lines is
modelled as a List String that each call consumes from the front.
-/

namespace FsLedger

/- String helpers mirroring the Rust str methods used by the source.
   They operate on the character list of the string, with leftmost
   (respectively rightmost) non-overlapping match semantics, matching
   the Rust standard library behaviour for the patterns the source uses. -/

/-- Model of Rust str.contains(char): the character occurs in the string. -/
def strHasChar (s : String) (c : Char) : Bool :=
  s.data.contains c

/-- Model of Rust str.starts_with(pat). -/
def strStartsWith (s pat : String) : Bool :=
  pat.data.isPrefixOf s.data

/-- Model of Rust str.ends_with(pat). -/
def strEndsWith (s pat : String) : Bool :=
  pat.data.isSuffixOf s.data

/-- Leftmost occurrence split: returns the text before and after the first
occurrence of pat, as Rust str.split_once does. -/
def splitOnceAux (pat : List Char) : List Char → Option (List Char × List Char)
  | [] => none
  | c :: rest =>
    if pat.isPrefixOf (c :: rest) then some ([], (c :: rest).drop pat.length)
    else match splitOnceAux pat rest with
      | some (b, a) => some (c :: b, a)
      | none => none

/-- Rightmost occurrence split: returns the text before and after the last
occurrence of pat, as the first two items of Rust str.rsplitn(2, pat). -/
def rsplitOnceAux (pat : List Char) : List Char → Option (List Char × List Char)
  | [] => none
  | c :: rest =>
    match rsplitOnceAux pat rest with
    | some (b, a) => some (c :: b, a)
    | none =>
      if pat.isPrefixOf (c :: rest) then some ([], (c :: rest).drop pat.length)
      else none

/-- Model of Rust str.split_once(pat). -/
def strSplitOnce (s pat : String) : Option (String × String) :=
  (splitOnceAux pat.data s.data).map fun p => (⟨p.1⟩, ⟨p.2⟩)

/-- Model of Rust str.rsplitn(2, pat): the part after and the part before the
last occurrence of pat, when pat occurs. -/
def strRsplitOnce (s pat : String) : Option (String × String) :=
  (rsplitOnceAux pat.data s.data).map fun p => (⟨p.1⟩, ⟨p.2⟩)

/-- Model of Rust str.contains(pat) for a string pattern. -/
def strContains (s pat : String) : Bool :=
  (strSplitOnce s pat).isSome

/-- Model of Rust str.split(pat).next().unwrap(): the text before the first
occurrence of pat, or the whole string when pat does not occur. -/
def strSplitFirst (s pat : String) : String :=
  match strSplitOnce s pat with
  | some p => p.1
  | none => s

/-- Model of Rust str.rsplit(pat).next().unwrap(): the text after the last
occurrence of pat, or the whole string when pat does not occur. -/
def strRsplitLast (s pat : String) : String :=
  match strRsplitOnce s pat with
  | some p => p.2
  | none => s

/-- Model of Rust str.trim_start_matches(char): drop every leading
occurrence of the character. -/
def trimStartChar (s : String) (c : Char) : String :=
  ⟨s.data.dropWhile (· == c)⟩

/-- Model of Rust str.trim_end_matches(char): drop every trailing
occurrence of the character. -/
def trimEndChar (s : String) (c : Char) : String :=
  ⟨(s.data.reverse.dropWhile (· == c)).reverse⟩

/-- Fuel-indexed worker for strTrimStartMatches. -/
def trimStartMatchesAux : Nat → List Char → List Char → List Char
  | 0, s, _ => s
  | fuel + 1, s, pat =>
    if pat ≠ [] ∧ pat.isPrefixOf s then trimStartMatchesAux fuel (s.drop pat.length) pat
    else s

/-- Model of Rust str.trim_start_matches(pat) for a string pattern:
repeatedly strip the pattern from the front. -/
def strTrimStartMatches (s pat : String) : String :=
  ⟨trimStartMatchesAux s.data.length s.data pat.data⟩

/- Account and commodity configuration constants from the source. -/

def ASSET : String := "assets:fundingsocieties"

def FUNDS : String := "assets:funds:fundingsocieties"

def BANK : String := "assets:bank:pbe"

def INCOME : String := "income:interest"

def EXPENSE : String := "expenses:service"

def COMMODITY : String := "MYR"

def LINE_WIDTH : Nat := 62

/-- One extracted statement row, the 6-tuple returned by extract_row in the
source: (date, title, cmt, dr, cr, total), in that order. -/
structure Row where
  date : String
  title : String
  cmt : String
  dr : String
  cr : String
  total : String
deriving DecidableEq, Repr

/-- One emitted posting line: the four arguments the source passes to pay. -/
structure Posting where
  acc : String
  sign : String
  amt : String
  cmt : String
deriving DecidableEq, Repr

/-- Failure modes of the row pipeline.  Each constructor models one panic
site of the source: badDate is the assert that a date line contains a dash,
noParen is the unwrap of rsplitn(2, "(") in header on a title without an
opening parenthesis, unsupportedAdjustment is the assert_eq on the debit of
an adjustment row, unrecognizedPosting covers both the unreachable macro for
two non-zero sides and the unimplemented macro for an unknown comment, and
outOfFuel is an artifact of the fuel-indexed recursion, never reached when
the fuel exceeds the number of remaining transactions. -/
inductive MainError where
  | badDate : MainError
  | noParen (title : String) : MainError
  | unsupportedAdjustment (r : Row) : MainError
  | unrecognizedPosting (r : Row) : MainError
  | outOfFuel : MainError
deriving DecidableEq, Repr

/-- One emitted output line of the ledger: the header line (already
formatted), the balance line (carrying the running total it prints), a
posting line (carrying the four pay arguments), or the blank separator. -/
inductive Ev where
  | header (line : String) : Ev
  | bal (total : String) : Ev
  | pay (p : Posting) : Ev
  | blank : Ev
deriving DecidableEq, Repr

/-- Failure modes of the table boundary extraction: boundaryNotFound models
the unwrap panics on the missing markers and the assert_eq on the "(RM)"
line, badDrain the out-of-range drain when the end marker sits before the
computed start. -/
inductive TextError where
  | boundaryNotFound : TextError
  | badDrain : TextError
deriving DecidableEq, Repr

/-- Model of Rust Iterator::position: index of the first element satisfying
the test. -/
def position (p : String → Bool) : List String → Option Nat
  | [] => none
  | a :: l => if p a then some 0 else (position p l).map (· + 1)

/-- Model of Rust Iterator::rposition: index of the last element satisfying
the test. -/
def rposition (p : String → Bool) (l : List String) : Option Nat :=
  (position p l.reverse).map fun i => l.length - 1 - i

/-- The boundary part of extract_text in the source: locate the line
"Balance", check that the line after the next one starts the table (the
assert_eq that the line at start_idx - 1 is "(RM)"), locate the last
"Important!" line, and keep the lines strictly between start_idx and the
end marker.  The unwrap and assert panics become boundaryNotFound. -/
def extract_text (text : List String) : Except TextError (List String) :=
  match position (fun s => s == "Balance") text with
  | none => .error .boundaryNotFound
  | some pos =>
    let start_idx := pos + 2
    match text[start_idx - 1]? with
    | none => .error .boundaryNotFound
    | some s =>
      if s ≠ "(RM)" then .error .boundaryNotFound
      else
        match rposition (fun s => s == "Important!") text with
        | none => .error .boundaryNotFound
        | some end_idx =>
          if end_idx < start_idx then .error .badDrain
          else .ok ((text.take end_idx).drop start_idx)

/-- Second half of extract_row: split the (possibly re-merged) title on the
first " || " into title and comment, then read the credit and total lines. -/
def finishRow (date title dr : String) (rest : List String) :
    Except MainError (Option (Row × List String)) :=
  let tc : String × String :=
    match strSplitOnce title " || " with
    | some p => p
    | none => (title, "")
  match rest with
  | [] => .ok none
  | cr :: rest2 =>
    match rest2 with
    | [] => .ok none
    | total :: rest3 => .ok (some (⟨date, tc.1, tc.2, dr, cr, total⟩, rest3))

/-- Model of extract_row in the source: consume one row (five lines, or six
when the title was wrapped and the debit line holds the title tail) from the
front of the line list.  Returns none at end of input, mirroring the
question-mark returns; the assert that the date contains a dash becomes the
badDate error. -/
def extract_row (lines : List String) :
    Except MainError (Option (Row × List String)) :=
  match lines with
  | [] => .ok none
  | date :: rest =>
    if strHasChar date '-' then
      match rest with
      | [] => .ok none
      | title :: rest2 =>
        match rest2 with
        | [] => .ok none
        | dr :: rest3 =>
          if strHasChar dr '.' then finishRow date title dr rest3
          else
            match rest3 with
            | [] => .ok none
            | dr2 :: rest4 => finishRow date (title ++ " " ++ dr) dr2 rest4
    else .error .badDate

/-- Renders the header line content given date, narration and comment,
mirroring the two write calls at the end of header in the source. -/
def mkHeaderLine (date narr cmt : String) : String :=
  if cmt = "" then date ++ " * " ++ narr
  else date ++ " * " ++ narr ++ "  ; " ++ cmt

/-- Model of header in the source: derive the narration and the side comment
from the raw title, then format the header line.  The unwrap panic on a
repayment title without an opening parenthesis becomes the noParen error. -/
def header (date title : String) : Except MainError String :=
  if title = "Deposit" ∨ strStartsWith title "Withdrawal" = true then
    .ok (mkHeaderLine date "Funding Societies" (if title = "" then "" else title))
  else if strContains title "invested" = true then
    .ok (mkHeaderLine date (strRsplitLast title "into ") "")
  else if strEndsWith title "repayment)" = true then
    match strRsplitOnce title "(" with
    | some p =>
      .ok (mkHeaderLine date (strTrimStartMatches p.1 "Revert ") (trimEndChar p.2 ')'))
    | none => .error (.noParen title)
  else .ok (mkHeaderLine date (strTrimStartMatches title "Revert ") "")

/-- The padding and rendering of a balance line, from balance in the source
(the indent is a tab, printed with width 8). -/
def balance (total : String) : String :=
  let pad := LINE_WIDTH - 8 - ASSET.length + COMMODITY.length + 1
  "\t" ++ ASSET ++ ⟨List.replicate pad ' '⟩ ++ " = " ++ total ++ " " ++ COMMODITY

/-- The padding and rendering of a posting line, from pay in the source. -/
def pay (acc sign amt cmt : String) : String :=
  let pad := LINE_WIDTH - 8 - acc.length - sign.length - amt.length - 1
  "\t" ++ acc ++ ⟨List.replicate pad ' '⟩ ++ " " ++ sign ++ amt ++ " " ++ COMMODITY
    ++ "  ; " ++ cmt

/-- The comment-dispatch lookup table of the default posting branch: the
match on block.2 in the source, as a partial map from comment to account. -/
def accOf (cmt : String) : Option String :=
  if cmt = "Service Fee" then some EXPENSE
  else if cmt = "Interest" ∨ cmt = "Late Interest Fee" ∨ cmt = "Early Payment Fee" ∨
      cmt = "Returns" ∨ cmt = "Late Returns Fee" then some INCOME
  else if cmt = "Principal" then some FUNDS
  else none

/-- The parenthesis stripping applied to the debit and credit fields in the
default branch of main. -/
def stripParens (s : String) : String :=
  trimEndChar (trimStartChar s '(') ')'

/-- The body of the default (comment-dispatch) posting branch of main for a
single row: strip parentheses from debit and credit, pick sign and amount
(empty sign and the debit when the credit is "0.00", minus sign and the
credit when the debit is "0.00" and the credit is not), then look the
comment up in the account table.  The unreachable and unimplemented panics
become the unrecognizedPosting error carrying the row. -/
def defaultPosting (r : Row) : Except MainError Posting :=
  if stripParens r.cr = "0.00" then
    match accOf r.cmt with
    | some acc => .ok ⟨acc, "", stripParens r.dr, r.cmt⟩
    | none => .error (.unrecognizedPosting r)
  else if stripParens r.dr = "0.00" then
    match accOf r.cmt with
    | some acc => .ok ⟨acc, "-", stripParens r.cr, r.cmt⟩
    | none => .error (.unrecognizedPosting r)
  else .error (.unrecognizedPosting r)

/-- The inner loop of the default branch of main: emit a posting for the
current row, look ahead one row, and merge it into the same transaction
while its date and title equal those of the current row.  Returns the
postings of the transaction and the row the outer loop continues with.
Mirrors the source faithfully, including the re-fetch at the bottom of the
while loop that discards the non-matching lookahead row: on a key mismatch
the lookahead row nb is dropped and a further row is fetched.  The fuel
only bounds the recursion and exceeds the possible number of iterations at
every call site. -/
def innerLoop : Nat → Row → List String →
    Except MainError (List Posting × Option (Row × List String))
  | 0, _, _ => .error .outOfFuel
  | fuel + 1, block, lines =>
    match defaultPosting block with
    | .error e => .error e
    | .ok p =>
      match extract_row lines with
      | .error e => .error e
      | .ok none => .ok ([p], none)
      | .ok (some (nb, ls2)) =>
        if block.date = nb.date ∧ block.title = nb.title then
          match innerLoop fuel nb ls2 with
          | .error e => .error e
          | .ok (ps, cont) => .ok (p :: ps, cont)
        else
          match extract_row ls2 with
          | .error e => .error e
          | .ok none => .ok ([p], none)
          | .ok (some rls) => .ok ([p], some rls)

/-- One iteration of the while loop of main, after the header and balance
lines: choose the branch on the title (and, for the invested branch, the
raw credit), produce the postings of this transaction, and return the row
the loop continues with (the re-fetch at the bottom of the loop). -/
def txnStep (block : Row) (lines : List String) :
    Except MainError (List Posting × Option (Row × List String)) :=
  if block.cr = "0.00" ∧ strContains block.title "invested" = true then
    (extract_row lines).map fun cont =>
      ([⟨FUNDS, "", block.dr, strSplitFirst block.title ": "⟩], cont)
  else if block.title = "Deposit" then
    (extract_row lines).map fun cont => ([⟨BANK, "-", block.cr, block.title⟩], cont)
  else if strStartsWith block.title "Withdrawal" = true then
    (extract_row lines).map fun cont => ([⟨BANK, "", block.dr, block.title⟩], cont)
  else if strStartsWith block.title "Adjustment for investment to " = true then
    if block.dr = "(0.00)" then
      (extract_row lines).map fun cont => ([⟨FUNDS, "-", block.cr, "Adjustment"⟩], cont)
    else .error (.unsupportedAdjustment block)
  else
    innerLoop (lines.length + 1) block lines

/-- The while loop of main, starting from a fetched row: write the header
and balance lines, run the branch for this transaction, write the blank
separator, and continue with the refetched row.  Fuel-indexed; every call
site supplies more fuel than there can be transactions. -/
def runFrom : Nat → Row → List String → Except MainError (List Ev)
  | 0, _, _ => .error .outOfFuel
  | fuel + 1, block, lines =>
    match header block.date block.title with
    | .error e => .error e
    | .ok h =>
      match txnStep block lines with
      | .error e => .error e
      | .ok (ps, none) =>
        .ok (Ev.header h :: Ev.bal block.total :: (ps.map Ev.pay ++ [Ev.blank]))
      | .ok (ps, some (r, ls)) =>
        match runFrom fuel r ls with
        | .error e => .error e
        | .ok rest =>
          .ok (Ev.header h :: Ev.bal block.total :: (ps.map Ev.pay ++ [Ev.blank] ++ rest))

/-- The transaction-emission part of main: extract the first row of the
table region and run the while loop. -/
def runMain (lines : List String) : Except MainError (List Ev) :=
  match extract_row lines with
  | .error e => .error e
  | .ok none => .ok []
  | .ok (some (r, ls)) => runFrom (ls.length + 1) r ls

/- Theorems. -/

/-- Claim C1: for every row processed by the default (comment-dispatch)
posting branch, after stripping surrounding parentheses from the debit and
credit strings, the emitted posting has sign "-" exactly when the stripped
debit is "0.00" and the stripped credit is non-zero (the amount then being
the credit), and has the empty sign exactly when the stripped credit is
"0.00" (the amount then being the debit). -/
theorem c1_sign (r : Row) (p : Posting) (h : defaultPosting r = .ok p) :
    (p.sign = "-" ↔ (stripParens r.dr = "0.00" ∧ stripParens r.cr ≠ "0.00")) ∧
    ((stripParens r.dr = "0.00" ∧ stripParens r.cr ≠ "0.00") → p.amt = stripParens r.cr) ∧
    (p.sign = "" ↔ stripParens r.cr = "0.00") ∧
    (stripParens r.cr = "0.00" → p.amt = stripParens r.dr) := by
  unfold defaultPosting at h
  split at h
  · rename_i hcr
    split at h
    · rename_i acc hacc
      injection h with h
      subst h
      refine ⟨by simp [hcr], by simp [hcr], by simp [hcr], fun _ => rfl⟩
    · cases h
  · rename_i hcr
    split at h
    · rename_i hdr
      split at h
      · rename_i acc hacc
        injection h with h
        subst h
        refine ⟨by simp [hdr, hcr], fun _ => rfl, by simp [hcr], by simp [hcr]⟩
      · cases h
    · cases h

/-- Witness for c1_sign at a concrete principal-repayment row. -/
theorem c1_sign_witness :
    (Posting.mk FUNDS "-" "100.00" "Principal").sign = "-" ↔
      (stripParens "(0.00)" = "0.00" ∧ stripParens "100.00" ≠ "0.00") :=
  (c1_sign ⟨"2024-01-10", "T-1", "Principal", "(0.00)", "100.00", "900.00"⟩
    ⟨FUNDS, "-", "100.00", "Principal"⟩ (by rfl)).1

/-- Claim C2: in the default posting branch the account of the emitted
posting is determined solely by the comment field of the row, via the
lookup table: Service Fee to the expense account, the five interest and fee
comments to the income account, Principal to the funds-holding account. -/
theorem c2_account (r : Row) (p : Posting) (h : defaultPosting r = .ok p) :
    accOf r.cmt = some p.acc ∧
    (r.cmt = "Service Fee" → p.acc = EXPENSE) ∧
    ((r.cmt = "Interest" ∨ r.cmt = "Late Interest Fee" ∨ r.cmt = "Early Payment Fee" ∨
      r.cmt = "Returns" ∨ r.cmt = "Late Returns Fee") → p.acc = INCOME) ∧
    (r.cmt = "Principal" → p.acc = FUNDS) := by
  have key : accOf r.cmt = some p.acc := by
    unfold defaultPosting at h
    split at h
    · split at h
      · rename_i acc hacc
        injection h with h
        subst h
        exact hacc
      · cases h
    · split at h
      · split at h
        · rename_i acc hacc
          injection h with h
          subst h
          exact hacc
        · cases h
      · cases h
  refine ⟨key, ?_, ?_, ?_⟩
  · intro hc
    rw [hc] at key
    simp [accOf, EXPENSE] at key
    simp [EXPENSE, key]
  · intro hc
    rcases hc with hc | hc | hc | hc | hc <;> rw [hc] at key <;>
      simp [accOf, INCOME] at key <;> simp [INCOME, key]
  · intro hc
    rw [hc] at key
    simp [accOf, FUNDS] at key
    simp [FUNDS, key]

/-- Witness for c2_account at a concrete principal row. -/
theorem c2_account_witness :
    (Posting.mk FUNDS "-" "100.00" "Principal").acc = FUNDS :=
  (c2_account ⟨"2024-01-10", "T-1", "Principal", "(0.00)", "100.00", "900.00"⟩
    ⟨FUNDS, "-", "100.00", "Principal"⟩ (by rfl)).2.2.2 rfl

/-- Claim C3: in the default posting branch, a row whose comment is not one
of the seven recognized strings, or whose stripped debit and credit are both
different from "0.00", makes the program fail with the unrecognizedPosting
error carrying the row, instead of emitting a posting or skipping the row. -/
theorem c3_unrecognized (r : Row)
    (h : r.cmt ∉ (["Service Fee", "Interest", "Late Interest Fee", "Early Payment Fee",
        "Returns", "Late Returns Fee", "Principal"] : List String) ∨
      (stripParens r.dr ≠ "0.00" ∧ stripParens r.cr ≠ "0.00")) :
    defaultPosting r = .error (.unrecognizedPosting r) := by
  rcases h with hm | ⟨hdr, hcr⟩
  · simp only [List.mem_cons, List.not_mem_nil, or_false, not_or] at hm
    have hnone : accOf r.cmt = none := by
      unfold accOf
      split_ifs with h1 h2 h3
      · exact absurd h1 hm.1
      · rcases h2 with h | h | h | h | h <;> simp_all
      · exact absurd h3 hm.2.2.2.2.2.2
      · rfl
    unfold defaultPosting
    split
    · simp [hnone]
    · split
      · simp [hnone]
      · rfl
  · unfold defaultPosting
    rw [if_neg hcr, if_neg hdr]

/-- Witness for c3_unrecognized at a row with an unknown comment. -/
theorem c3_unrecognized_witness :
    defaultPosting ⟨"2024-01-10", "T-1", "Mystery Fee", "(0.00)", "100.00", "900.00"⟩ =
      .error (.unrecognizedPosting
        ⟨"2024-01-10", "T-1", "Mystery Fee", "(0.00)", "100.00", "900.00"⟩) :=
  c3_unrecognized ⟨"2024-01-10", "T-1", "Mystery Fee", "(0.00)", "100.00", "900.00"⟩
    (Or.inl (by decide))

/-- When position finds an index, the element there satisfies the test. -/
theorem position_some_get (p : String → Bool) :
    ∀ (l : List String) (i : Nat), position p l = some i →
      ∃ x, l[i]? = some x ∧ p x = true
  | [], i, h => by simp [position] at h
  | a :: l, i, h => by
    unfold position at h
    split at h
    · rename_i hpa
      injection h with h
      subst h
      exact ⟨a, by simp, hpa⟩
    · rcases Option.map_eq_some'.mp h with ⟨j, hj, hj1⟩
      obtain ⟨x, hx, hpx⟩ := position_some_get p l j hj
      subst hj1
      exact ⟨x, by simpa using hx, hpx⟩

/-- When no element satisfies the test, position finds nothing. -/
theorem position_eq_none (p : String → Bool) :
    ∀ (l : List String), (∀ x ∈ l, p x = false) → position p l = none
  | [], _ => rfl
  | a :: l, h => by
    unfold position
    rw [if_neg, position_eq_none p l fun x hx => h x (List.mem_cons_of_mem a hx)]
    · rfl
    · simp [h a (List.mem_cons_self a l)]

/-- Claim C6: when the start marker (the "Balance" line followed, one line
later, by "(RM)") or the end marker (the "Important!" line) is absent, the
table extraction fails with the boundaryNotFound error (the unwrap and
assert panics of the source), so no transactions are produced; in
particular an input that has the end marker but no start marker fails. -/
theorem c6_boundary (text : List String)
    (h : (∀ i, i < text.length → text[i]? = some "Balance" →
        ¬ text[i + 1]? = some "(RM)") ∨ "Important!" ∉ text) :
    extract_text text = .error .boundaryNotFound := by
  unfold extract_text
  cases hpos : position (fun s => s == "Balance") text with
  | none => rfl
  | some pos =>
    obtain ⟨x, hx, hpx⟩ := position_some_get _ text pos hpos
    have hxB : x = "Balance" := by simpa using hpx
    subst hxB
    have hlt : pos < text.length := by
      by_contra hge
      rw [List.getElem?_eq_none (Nat.le_of_not_lt hge)] at hx
      cases hx
    have hidx : pos + 2 - 1 = pos + 1 := rfl
    rcases h with hL | hR
    · have hne := hL pos hlt hx
      cases hget : text[pos + 1]? with
      | none => simp [hidx, hget]
      | some s =>
        have hs : s ≠ "(RM)" := fun he => hne (by rw [hget, he])
        simp [hidx, hget, hs]
    · cases hget : text[pos + 1]? with
      | none => simp [hidx, hget]
      | some s =>
        by_cases hs : s = "(RM)"
        · have hrp : rposition (fun s => s == "Important!") text = none := by
            unfold rposition
            rw [position_eq_none]
            · rfl
            · intro y hy
              rw [beq_eq_false_iff_ne]
              intro he
              subst he
              exact hR (List.mem_reverse.mp hy)
          simp [hidx, hget, hs, hrp]
        · simp [hidx, hget, hs]

/-- Witness for c6_boundary: the end marker with no start marker. -/
theorem c6_boundary_witness :
    extract_text ["Important!"] = .error .boundaryNotFound :=
  c6_boundary ["Important!"] (Or.inl (by decide))

/-- Claim C4: evaluation of the code at the failing input.  Two rows with
different (date, title) keys: the spec says the mismatching second row must
close the first group and start a new transaction, but the emitted output
contains only the first transaction — the while loop of main refetches a row
at its bottom after the inner loop already consumed the non-matching
lookahead row, so the second row is silently dropped. -/
theorem c4_dropped_row :
    runMain ["2024-01-01", "T-1 || Principal", "(0.00)", "100.00", "900.00",
      "2024-01-02", "T-2 || Interest", "(0.00)", "50.00", "950.00"] =
      .ok [Ev.header "2024-01-01 * T-1", Ev.bal "900.00",
        Ev.pay ⟨FUNDS, "-", "100.00", "Principal"⟩, Ev.blank] := by
  rfl

/-- Claim C5, counterexample: a trailing non-whitespace line after the last
matched row ("2024-01-02", fewer lines than one full row) does not make the
program fail; the run terminates successfully with the residual dropped,
because no TrailingUnparsedText check exists in the code. -/
theorem c5_counterexample :
    runMain ["2024-01-01", "T-1 || Principal", "(0.00)", "100.00", "900.00",
      "2024-01-02"] =
      .ok [Ev.header "2024-01-01 * T-1", Ev.bal "900.00",
        Ev.pay ⟨FUNDS, "-", "100.00", "Principal"⟩, Ev.blank] ∧
    ("2024-01-02" : String) ≠ "" := by
  exact ⟨by rfl, by decide⟩

/-- Claim C5, amended: when fewer lines than one full row remain (at most
four), and the line read as a date contains a dash when present, extract_row
reports end of input rather than any error, so main terminates successfully
and the residual text is dropped. -/
theorem c5_amended (ls : List String) (h1 : ls.length ≤ 4)
    (h2 : ∀ d, ls.head? = some d → strHasChar d '-' = true) :
    extract_row ls = .ok none := by
  match ls, h1 with
  | [], _ => rfl
  | [d], _ =>
    simp [extract_row, h2 d rfl]
  | [d, t], _ =>
    simp [extract_row, h2 d rfl]
  | [d, t, dr], _ =>
    simp only [extract_row, h2 d rfl, if_true]
    split <;> simp [finishRow]
  | [d, t, dr, x], _ =>
    simp only [extract_row, h2 d rfl, if_true]
    split <;> simp [finishRow]

/-- Witness for c5_amended on a single trailing date line. -/
theorem c5_amended_witness : extract_row ["2024-01-10"] = .ok none :=
  c5_amended ["2024-01-10"] (by decide)
    (by intro d hd; simp only [List.head?] at hd; injection hd with hd; subst hd; decide)

/-- Claim C7, counterexample: for the single repayment row of the scenario
the emitted header line carries three spaces before the semicolon (the
narration keeps the space that preceded the opening parenthesis, because the
title is split at "(" and not at " ("), so it differs from the two-space
header line the claim states. -/
theorem c7_counterexample :
    runMain ["2024-01-10", "XXXX-00000000 (1 of 1 repayment) || Principal",
      "(0.00)", "100.00", "900.00"] =
      .ok [Ev.header "2024-01-10 * XXXX-00000000   ; 1 of 1 repayment", Ev.bal "900.00",
        Ev.pay ⟨FUNDS, "-", "100.00", "Principal"⟩, Ev.blank] ∧
    ("2024-01-10 * XXXX-00000000   ; 1 of 1 repayment" : String) ≠
      "2024-01-10 * XXXX-00000000  ; 1 of 1 repayment" := by
  exact ⟨by rfl, by decide⟩

/-- Claim C7, amended: the single repayment row of the scenario emits the
header line "2024-01-10 * XXXX-00000000   ; 1 of 1 repayment" (with the
trailing space of the narration kept before the two-space comment
separator), followed by the balance line and exactly one posting to the
funds-holding account with sign "-", amount "100.00", comment "Principal". -/
theorem c7_amended :
    runMain ["2024-01-10", "XXXX-00000000 (1 of 1 repayment) || Principal",
      "(0.00)", "100.00", "900.00"] =
      .ok [Ev.header "2024-01-10 * XXXX-00000000   ; 1 of 1 repayment", Ev.bal "900.00",
        Ev.pay ⟨FUNDS, "-", "100.00", "Principal"⟩, Ev.blank] := by
  rfl

/-- Claim C8, counterexample: an adjustment row whose debit is "(0.00)" —
hence different from the "0.00" the claim requires — does not fail with
UnsupportedAdjustment; it succeeds and emits the funds posting, because the
assert in the source compares the raw debit against "(0.00)". -/
theorem c8_counterexample :
    runMain ["2024-01-10", "Adjustment for investment to AAAA",
      "(0.00)", "50.00", "0.00"] =
      .ok [Ev.header "2024-01-10 * Adjustment for investment to AAAA", Ev.bal "0.00",
        Ev.pay ⟨FUNDS, "-", "50.00", "Adjustment"⟩, Ev.blank] ∧
    ("(0.00)" : String) ≠ "0.00" := by
  exact ⟨by rfl, by decide⟩

/-- Claim C9, counterexample: a Deposit row whose embedded row comment is
empty (no " || " separator in the title line) still gets a header line with
a comment part, namely the title "Deposit" itself — header never reads the
row comment, so the claim that the header comment is the embedded comment
(and absent when that is empty) fails. -/
theorem c9_counterexample :
    runMain ["2024-01-10", "Deposit", "(0.00)", "250.00", "1000.00"] =
      .ok [Ev.header "2024-01-10 * Funding Societies  ; Deposit", Ev.bal "1000.00",
        Ev.pay ⟨BANK, "-", "250.00", "Deposit"⟩, Ev.blank] ∧
    ("2024-01-10 * Funding Societies  ; Deposit" : String) ≠
      "2024-01-10 * Funding Societies" := by
  exact ⟨by rfl, by decide⟩

/-- Claim C10, counterexample: a row whose title contains "invested" and
whose credit is "0.00" does not always produce its own single-posting
transaction — when it follows a default-branch row with the same date and
title (here one whose raw credit is "(0.00)", so the invested branch test
fails for it), it is merged into that preceding transaction, which then has
two postings under one header. -/
theorem c10_counterexample :
    runMain ["2024-01-03", "Auto Investment: invested 100 into AAAA || Principal",
      "100.00", "(0.00)", "900.00",
      "2024-01-03", "Auto Investment: invested 100 into AAAA || Principal",
      "(0.00)", "0.00", "900.00"] =
      .ok [Ev.header "2024-01-03 * AAAA", Ev.bal "900.00",
        Ev.pay ⟨FUNDS, "", "100.00", "Principal"⟩,
        Ev.pay ⟨FUNDS, "", "0.00", "Principal"⟩, Ev.blank] ∧
    strContains "Auto Investment: invested 100 into AAAA" "invested" = true ∧
    ("0.00" : String) = "0.00" := by
  exact ⟨by rfl, by decide, rfl⟩

/-- A title that starts with the adjustment marker cannot start with
"Withdrawal". -/
theorem adj_not_withdrawal (t : String)
    (h : strStartsWith t "Adjustment for investment to " = true) :
    strStartsWith t "Withdrawal" = false := by
  unfold strStartsWith at h ⊢
  by_contra hW
  rw [Bool.not_eq_false] at hW
  have h1 := List.isPrefixOf_iff_prefix.mp h
  have h2 := List.isPrefixOf_iff_prefix.mp hW
  have hle : ("Withdrawal".data).length ≤ ("Adjustment for investment to ".data).length := by
    decide
  have hpp := List.prefix_of_prefix_length_le h2 h1 hle
  have hb : ("Withdrawal".data).isPrefixOf ("Adjustment for investment to ".data) = true :=
    List.isPrefixOf_iff_prefix.mpr hpp
  exact absurd hb (by decide)

/-- Claim C8, amended: a row whose title starts with
"Adjustment for investment to " (and which is not captured by the earlier
invested branch) requires its raw debit to equal "(0.00)", the parenthesized
zero — not "0.00": when the debit differs the run fails with the
unsupportedAdjustment error, and when it holds the transaction contains
exactly one posting, to the funds-holding account with sign "-", amount the
raw credit of the row, and comment "Adjustment". -/
theorem c8_amended (fuel : Nat) (block : Row) (lines : List String) (h : String)
    (hninv : ¬ (block.cr = "0.00" ∧ strContains block.title "invested" = true))
    (hadj : strStartsWith block.title "Adjustment for investment to " = true)
    (hh : header block.date block.title = .ok h) :
    (block.dr ≠ "(0.00)" →
      runFrom (fuel + 1) block lines = .error (.unsupportedAdjustment block)) ∧
    (block.dr = "(0.00)" → ∀ evs, runFrom (fuel + 1) block lines = .ok evs →
      ∃ rest, evs = Ev.header h :: Ev.bal block.total ::
        Ev.pay ⟨FUNDS, "-", block.cr, "Adjustment"⟩ :: Ev.blank :: rest) := by
  have hnd : ¬ block.title = "Deposit" := by
    intro he
    rw [he] at hadj
    exact absurd hadj (by decide)
  have hnw : ¬ strStartsWith block.title "Withdrawal" = true := by
    rw [adj_not_withdrawal block.title hadj]
    simp
  have hstep : txnStep block lines =
      if block.dr = "(0.00)" then
        (extract_row lines).map fun cont => ([⟨FUNDS, "-", block.cr, "Adjustment"⟩], cont)
      else .error (.unsupportedAdjustment block) := by
    unfold txnStep
    rw [if_neg hninv, if_neg hnd, if_neg hnw, if_pos hadj]
  constructor
  · intro hdr
    have hstep2 : txnStep block lines = .error (.unsupportedAdjustment block) := by
      rw [hstep, if_neg hdr]
    simp only [runFrom, hh, hstep2]
  · intro hdr evs hr
    have hstep2 : txnStep block lines =
        (extract_row lines).map fun cont =>
          ([⟨FUNDS, "-", block.cr, "Adjustment"⟩], cont) := by
      rw [hstep, if_pos hdr]
    simp only [runFrom, hh, hstep2] at hr
    cases hx : extract_row lines with
    | error e =>
      rw [hx] at hr
      simp [Except.map] at hr
    | ok o =>
      cases o with
      | none =>
        rw [hx] at hr
        simp only [Except.map, List.map, List.nil_append, List.singleton_append,
          Except.ok.injEq] at hr
        exact ⟨[], by simp [← hr]⟩
      | some rl =>
        obtain ⟨r, ls⟩ := rl
        rw [hx] at hr
        simp only [Except.map] at hr
        cases hr2 : runFrom fuel r ls with
        | error e =>
          rw [hr2] at hr
          simp at hr
        | ok rest =>
          rw [hr2] at hr
          simp only [List.map, List.nil_append, List.singleton_append,
            Except.ok.injEq] at hr
          exact ⟨rest, by simp [← hr]⟩

/-- Witness for c8_amended at a concrete adjustment row with debit
"(0.00)". -/
theorem c8_amended_witness :
    ∃ rest, ([Ev.header "2024-01-10 * Adjustment for investment to AAAA", Ev.bal "0.00",
        Ev.pay ⟨FUNDS, "-", "50.00", "Adjustment"⟩, Ev.blank] : List Ev) =
      Ev.header "2024-01-10 * Adjustment for investment to AAAA" :: Ev.bal "0.00" ::
        Ev.pay ⟨FUNDS, "-", "50.00", "Adjustment"⟩ :: Ev.blank :: rest :=
  (c8_amended 0 ⟨"2024-01-10", "Adjustment for investment to AAAA", "", "(0.00)",
      "50.00", "0.00"⟩ [] "2024-01-10 * Adjustment for investment to AAAA"
    (by decide) (by decide) (by rfl)).2 rfl
    [Ev.header "2024-01-10 * Adjustment for investment to AAAA", Ev.bal "0.00",
      Ev.pay ⟨FUNDS, "-", "50.00", "Adjustment"⟩, Ev.blank] (by rfl)

/-- Claim C9, amended: for a title that is exactly "Deposit" the header line
uses the fixed institution label as narration, and its comment part is the
title text "Deposit" itself, always present — the header function never
reads the comment embedded in the row. -/
theorem c9_amended (d : String) :
    header d "Deposit" = .ok (d ++ " * Funding Societies  ; Deposit") := by
  unfold header
  rw [if_pos (Or.inl rfl)]
  unfold mkHeaderLine
  simp [String.append_assoc]

/-- Witness for c9_amended at a concrete date. -/
theorem c9_amended_witness :
    header "2024-01-10" "Deposit" = .ok "2024-01-10 * Funding Societies  ; Deposit" :=
  c9_amended "2024-01-10"

/-- Claim C10, amended: a row that is dispatched at the start of a
transaction and matches one of the four special shapes (title exactly
"Deposit", title starting with "Withdrawal", title containing "invested"
with raw credit "0.00", title starting with the adjustment marker) produces
a transaction with exactly one posting, and is never merged with the
following row: processing continues with a fresh extract_row from the
remaining lines, with no key comparison.  Merging of same-key rows happens
only in the default comment-dispatch branch — and, as c10_counterexample
shows, that branch can also absorb a later same-key row that itself matches
the invested shape, which is what refutes the claim as stated. -/
theorem c10_amended (fuel : Nat) (block : Row) (lines : List String) (h : String)
    (evs : List Ev)
    (hs : (block.cr = "0.00" ∧ strContains block.title "invested" = true) ∨
      block.title = "Deposit" ∨ strStartsWith block.title "Withdrawal" = true ∨
      strStartsWith block.title "Adjustment for investment to " = true)
    (hh : header block.date block.title = .ok h)
    (hr : runFrom (fuel + 1) block lines = .ok evs) :
    ∃ p rest, evs = Ev.header h :: Ev.bal block.total :: Ev.pay p :: Ev.blank :: rest ∧
      ((extract_row lines = .ok none ∧ rest = []) ∨
        ∃ r ls, extract_row lines = .ok (some (r, ls)) ∧ runFrom fuel r ls = .ok rest) := by
  have hstep : (∃ q, txnStep block lines =
      (extract_row lines).map fun cont => ([q], cont)) ∨
      ∃ e, txnStep block lines = .error e := by
    unfold txnStep
    split
    · exact Or.inl ⟨_, rfl⟩
    · split
      · exact Or.inl ⟨_, rfl⟩
      · split
        · exact Or.inl ⟨_, rfl⟩
        · split
          · split
            · exact Or.inl ⟨_, rfl⟩
            · exact Or.inr ⟨_, rfl⟩
          · rename_i h1 h2 h3 h4
            rcases hs with hs | hs | hs | hs
            · exact absurd hs h1
            · exact absurd hs h2
            · exact absurd hs h3
            · exact absurd hs h4
  rcases hstep with ⟨q, hq⟩ | ⟨e, he⟩
  · simp only [runFrom, hh, hq] at hr
    cases hx : extract_row lines with
    | error e =>
      rw [hx] at hr
      simp [Except.map] at hr
    | ok o =>
      cases o with
      | none =>
        rw [hx] at hr
        simp only [Except.map, List.map, List.nil_append, List.singleton_append,
          Except.ok.injEq] at hr
        exact ⟨q, [], by simp [← hr], Or.inl ⟨rfl, rfl⟩⟩
      | some rl =>
        obtain ⟨r, ls⟩ := rl
        rw [hx] at hr
        simp only [Except.map] at hr
        cases hr2 : runFrom fuel r ls with
        | error e2 =>
          rw [hr2] at hr
          simp at hr
        | ok rest =>
          rw [hr2] at hr
          simp only [List.map, List.nil_append, List.singleton_append,
            Except.ok.injEq] at hr
          exact ⟨q, rest, by simp [← hr], Or.inr ⟨r, ls, rfl, hr2⟩⟩
  · simp only [runFrom, hh, he] at hr
    cases hr

/-- Witness for c10_amended at a concrete Deposit row with no following
rows. -/
theorem c10_amended_witness :
    ∃ p rest, ([Ev.header "2024-01-10 * Funding Societies  ; Deposit", Ev.bal "1000.00",
        Ev.pay ⟨BANK, "-", "250.00", "Deposit"⟩, Ev.blank] : List Ev) =
      Ev.header "2024-01-10 * Funding Societies  ; Deposit" :: Ev.bal "1000.00" ::
        Ev.pay p :: Ev.blank :: rest ∧
      ((extract_row [] = .ok none ∧ rest = []) ∨
        ∃ r ls, extract_row [] = .ok (some (r, ls)) ∧ runFrom 0 r ls = .ok rest) :=
  c10_amended 0 ⟨"2024-01-10", "Deposit", "", "(0.00)", "250.00", "1000.00"⟩ []
    "2024-01-10 * Funding Societies  ; Deposit"
    [Ev.header "2024-01-10 * Funding Societies  ; Deposit", Ev.bal "1000.00",
      Ev.pay ⟨BANK, "-", "250.00", "Deposit"⟩, Ev.blank]
    (Or.inr (Or.inl rfl)) (by rfl) (by rfl)

end FsLedger
